import Mathlib

/-!
Shallow embedding of the `clap-verbosity-flag` crate.

The crate computes an effective logging verbosity level from a baseline
severity level (the `LogLevel` customization point) and two `u8` flag
counts (`--verbose` / `--quiet`).  The core arithmetic lives in
`src/lib.rs` (`Verbosity::filter`, `VerbosityFilter::with_offset`,
`VerbosityFilter::value`); `src/log.rs` and `src/tracing.rs` convert the
resulting filter to the backend level types (there the filter enum is
referred to as `Filter`).

Machine integers are modelled as `Nat`/`Int` with the `i16` operations
made explicit: `wrapI16` is two's-complement wrapping into the `i16`
range (the semantics of a hypothetical overflow of `i16` subtraction)
and `satAddI16` is `i16::saturating_add`.
-/

namespace ClapVerbosity

/-- Two's-complement reduction of an integer into the `i16` range.
`i16` subtraction in the source (`self.verbose as i16 - self.quiet as i16`)
is modelled as exact subtraction followed by this wrap; the proofs show
the wrap is the identity on the whole `u8 × u8` input domain. -/
def wrapI16 (x : Int) : Int :=
  (x + 32768) % 65536 - 32768

/-- Embedding of `i16::saturating_add`: the exact sum clamped into the
`i16` range. -/
def satAddI16 (a b : Int) : Int :=
  max (-32768) (min 32767 (a + b))

/-- Embedding of `enum VerbosityFilter` from `src/lib.rs` (named `Filter`
in `src/log.rs` / `src/tracing.rs`): the six severity levels. -/
inductive VerbosityFilter
  | Off
  | Error
  | Warn
  | Info
  | Debug
  | Trace
deriving DecidableEq, Repr

/-- Embedding of `VerbosityFilter::value` (`src/lib.rs` lines 290-299):
the numeric value of the filter, `Off = 0` through `Trace = 5`. -/
def VerbosityFilter.value : VerbosityFilter → Nat
  | .Off => 0
  | .Error => 1
  | .Warn => 2
  | .Info => 3
  | .Debug => 4
  | .Trace => 5

/-- Embedding of `VerbosityFilter::with_offset` (`src/lib.rs` lines
276-285): `i16::from(self.value()).saturating_add(offset)` matched
against the ranges `i16::MIN..=0`, `1`, `2`, `3`, `4`, `5..=i16::MAX`. -/
def VerbosityFilter.with_offset (f : VerbosityFilter) (offset : Int) : VerbosityFilter :=
  let n := satAddI16 (f.value : Int) offset
  if n ≤ 0 then .Off
  else if n = 1 then .Error
  else if n = 2 then .Warn
  else if n = 3 then .Info
  else if n = 4 then .Debug
  else .Trace

/-- Embedding of the `Display` impl for `VerbosityFilter` (`src/lib.rs`
lines 302-313): the lowercase name of the level. -/
def VerbosityFilter.display : VerbosityFilter → String
  | .Off => "off"
  | .Error => "error"
  | .Warn => "warn"
  | .Info => "info"
  | .Debug => "debug"
  | .Trace => "trace"

/-- Embedding of the `LogLevel` trait: its only data relevant to the
arithmetic is the baseline filter returned by `default_filter()`
(the help-text methods return static strings and play no role here). -/
structure LogLevel where
  default_filter : VerbosityFilter
deriving DecidableEq, Repr

/-- Embedding of `struct OffLevel` with its `LogLevel` impl. -/
def OffLevel : LogLevel := ⟨.Off⟩

/-- Embedding of `struct ErrorLevel` with its `LogLevel` impl. -/
def ErrorLevel : LogLevel := ⟨.Error⟩

/-- Embedding of `struct WarnLevel` with its `LogLevel` impl. -/
def WarnLevel : LogLevel := ⟨.Warn⟩

/-- Embedding of `struct InfoLevel` with its `LogLevel` impl. -/
def InfoLevel : LogLevel := ⟨.Info⟩

/-- Embedding of `struct DebugLevel` with its `LogLevel` impl. -/
def DebugLevel : LogLevel := ⟨.Debug⟩

/-- Embedding of `struct TraceLevel` with its `LogLevel` impl. -/
def TraceLevel : LogLevel := ⟨.Trace⟩

/-- Embedding of `struct Verbosity`'s data: the two `u8` flag counts,
modelled as `Nat` with the bound `≤ 255` carried as a hypothesis where
it matters.  The `phantom` marker carries no data and is dropped; the
baseline type parameter `L` becomes an explicit `LogLevel` argument of
the operations. -/
structure Verbosity where
  verbose : Nat
  quiet : Nat
deriving DecidableEq, Repr

/-- Embedding of `Verbosity::new`. -/
def Verbosity.new (verbose quiet : Nat) : Verbosity :=
  ⟨verbose, quiet⟩

/-- Embedding of `Verbosity::is_present`. -/
def Verbosity.is_present (s : Verbosity) : Bool :=
  s.verbose != 0 || s.quiet != 0

/-- Embedding of `Verbosity::filter` (`src/lib.rs` lines 174-178):
`let offset = self.verbose as i16 - self.quiet as i16;
 L::default_filter().with_offset(offset)`. -/
def Verbosity.filter (L : LogLevel) (s : Verbosity) : VerbosityFilter :=
  let offset := wrapI16 ((s.verbose : Int) - (s.quiet : Int))
  L.default_filter.with_offset offset

/-- Embedding of `Verbosity::is_silent` (`src/lib.rs` lines 169-171). -/
def Verbosity.is_silent (L : LogLevel) (s : Verbosity) : Bool :=
  Verbosity.filter L s == VerbosityFilter.Off

/-- Embedding of the `Display` impl for `Verbosity` (`src/lib.rs` lines
210-214): delegates to the `Display` of the effective filter. -/
def Verbosity.display (L : LogLevel) (s : Verbosity) : String :=
  (Verbosity.filter L s).display

/-- Embedding of `impl From<VerbosityFilter> for Verbosity<L>`
(`src/lib.rs` lines 222-229): both counts via `u8::saturating_sub`,
which `Nat` subtraction models exactly. -/
def Verbosity.fromFilter (L : LogLevel) (f : VerbosityFilter) : Verbosity :=
  Verbosity.new (f.value - L.default_filter.value) (L.default_filter.value - f.value)

/-- Spec-side definition (section 4.1 of the spec, and the claims): the
zero-based rank of a severity level, `Off` mapping to `0` through `Trace`
mapping to `5`, written independently of `VerbosityFilter.value` so that
the claims can be stated in the spec's vocabulary. -/
def rank : VerbosityFilter → Nat
  | .Off => 0
  | .Error => 1
  | .Warn => 2
  | .Info => 3
  | .Debug => 4
  | .Trace => 5

/-- Spec-side definition (section 4.1 of the spec): `from_rank(n)` yields
`Off` for `n ≤ 0`, `Trace` for `n ≥ 5`, and otherwise the level at rank
`n`. -/
def from_rank (n : Int) : VerbosityFilter :=
  if n ≤ 0 then .Off
  else if 5 ≤ n then .Trace
  else if n = 1 then .Error
  else if n = 2 then .Warn
  else if n = 3 then .Info
  else .Debug

/-- Modelled from the spec: the serde derive on `VerbosityFilter` with
`serde(rename_all = "lowercase")`, together with `serde(into =
"VerbosityFilter")` on `Verbosity`, is macro-generated code not present
under `src/`; per the spec the effective level serializes to its
lowercase textual name as a single scalar string. -/
def VerbosityFilter.serialize : VerbosityFilter → String
  | .Off => "off"
  | .Error => "error"
  | .Warn => "warn"
  | .Info => "info"
  | .Debug => "debug"
  | .Trace => "trace"

/-- Modelled from the spec: deserialization of the lowercase textual
name back into a `VerbosityFilter` (the serde derive with
`rename_all = "lowercase"`); any other string is rejected. -/
def VerbosityFilter.deserialize (s : String) : Option VerbosityFilter :=
  if s = "off" then some .Off
  else if s = "error" then some .Error
  else if s = "warn" then some .Warn
  else if s = "info" then some .Info
  else if s = "debug" then some .Debug
  else if s = "trace" then some .Trace
  else none

/-- Modelled from the spec: serialization of a `Verbosity` goes through
`serde(into = "VerbosityFilter")`, i.e. through `Verbosity::filter`, so
the serialized form is the lowercase name of the effective level. -/
def Verbosity.serialize (L : LogLevel) (s : Verbosity) : String :=
  (Verbosity.filter L s).serialize

/-- Modelled from the spec: deserialization of a `Verbosity` goes
through `serde(from = "VerbosityFilter")`, i.e. it deserializes a
`VerbosityFilter` and converts it with `From<VerbosityFilter>`. -/
def Verbosity.deserialize (L : LogLevel) (s : String) : Option Verbosity :=
  (VerbosityFilter.deserialize s).map (Verbosity.fromFilter L)

namespace LogBackend

/-- The `log` crate's `Level` enum (external collaborator), five
discrete levels ordered `Error < Warn < Info < Debug < Trace`. -/
inductive Level
  | Error
  | Warn
  | Info
  | Debug
  | Trace
deriving DecidableEq, Repr

/-- The `log` crate's `LevelFilter` enum (external collaborator): the
five levels plus an explicit `Off` state below all of them. -/
inductive LevelFilter
  | Off
  | Error
  | Warn
  | Info
  | Debug
  | Trace
deriving DecidableEq, Repr

/-- Rank of a `log::Level` on the six-point scale: `Error = 1` through
`Trace = 5` (the `log` crate's own ascending order, with `0` reserved
for the absent level). -/
def Level.rank : Level → Nat
  | .Error => 1
  | .Warn => 2
  | .Info => 3
  | .Debug => 4
  | .Trace => 5

/-- Rank of a `log::LevelFilter` on the six-point scale, `Off = 0`
through `Trace = 5` (the `log` crate's own ascending order). -/
def LevelFilter.rank : LevelFilter → Nat
  | .Off => 0
  | .Error => 1
  | .Warn => 2
  | .Info => 3
  | .Debug => 4
  | .Trace => 5

end LogBackend

/-- Embedding of `impl From<Filter> for log::LevelFilter` (`src/log.rs`
lines 9-20). -/
def logLevelFilterOfFilter : VerbosityFilter → LogBackend.LevelFilter
  | .Off => .Off
  | .Error => .Error
  | .Warn => .Warn
  | .Info => .Info
  | .Debug => .Debug
  | .Trace => .Trace

/-- Embedding of `impl From<Filter> for Option<log::Level>`
(`src/log.rs` lines 35-46). -/
def optLogLevelOfFilter : VerbosityFilter → Option LogBackend.Level
  | .Off => none
  | .Error => some .Error
  | .Warn => some .Warn
  | .Info => some .Info
  | .Debug => some .Debug
  | .Trace => some .Trace

namespace TracingBackend

/-- The `tracing_core` crate's `Level` (external collaborator), five
discrete levels; `ERROR` is ranked `1` through `TRACE` ranked `5` on the
six-point scale used here. -/
inductive Level
  | ERROR
  | WARN
  | INFO
  | DEBUG
  | TRACE
deriving DecidableEq, Repr

/-- The `tracing_core` crate's `LevelFilter` (external collaborator):
the five levels plus an explicit `OFF` state. -/
inductive LevelFilter
  | OFF
  | ERROR
  | WARN
  | INFO
  | DEBUG
  | TRACE
deriving DecidableEq, Repr

/-- Rank of a `tracing_core::Level` on the six-point scale. -/
def Level.rank : Level → Nat
  | .ERROR => 1
  | .WARN => 2
  | .INFO => 3
  | .DEBUG => 4
  | .TRACE => 5

/-- Rank of a `tracing_core::LevelFilter` on the six-point scale. -/
def LevelFilter.rank : LevelFilter → Nat
  | .OFF => 0
  | .ERROR => 1
  | .WARN => 2
  | .INFO => 3
  | .DEBUG => 4
  | .TRACE => 5

end TracingBackend

/-- Embedding of `impl From<Filter> for tracing_core::LevelFilter`
(`src/tracing.rs` lines 8-19). -/
def tracingLevelFilterOfFilter : VerbosityFilter → TracingBackend.LevelFilter
  | .Off => .OFF
  | .Error => .ERROR
  | .Warn => .WARN
  | .Info => .INFO
  | .Debug => .DEBUG
  | .Trace => .TRACE

/-- Embedding of `impl From<Filter> for Option<tracing_core::Level>`
(`src/tracing.rs` lines 34-45). -/
def optTracingLevelOfFilter : VerbosityFilter → Option TracingBackend.Level
  | .Off => none
  | .Error => some .ERROR
  | .Warn => some .WARN
  | .Info => some .INFO
  | .Debug => some .DEBUG
  | .Trace => some .TRACE

/-- Embedding of `Verbosity::log_level` (`src/lib.rs` lines 185-187):
`self.filter().into()` through `From<Filter> for Option<log::Level>`. -/
def Verbosity.log_level (L : LogLevel) (s : Verbosity) : Option LogBackend.Level :=
  optLogLevelOfFilter (Verbosity.filter L s)

/-- Embedding of `Verbosity::tracing_level` (`src/lib.rs` lines
200-202): `self.filter().into()` through the tracing conversion. -/
def Verbosity.tracing_level (L : LogLevel) (s : Verbosity) : Option TracingBackend.Level :=
  optTracingLevelOfFilter (Verbosity.filter L s)

/-! ## Helper lemmas shared by the claim theorems -/

/-- The spec-side `rank` agrees with the source's `VerbosityFilter.value`. -/
theorem rank_eq_value (f : VerbosityFilter) : rank f = f.value := by
  cases f <;> rfl

/-- Any level's rank is at most `5`. -/
theorem value_le_five (f : VerbosityFilter) : f.value ≤ 5 := by
  cases f <;> decide

/-- Two's-complement wrapping into the `i16` range is the identity on
integers already in that range. -/
theorem wrapI16_eq_self (x : Int) (h1 : -32768 ≤ x) (h2 : x ≤ 32767) :
    wrapI16 x = x := by
  unfold wrapI16
  omega

/-- Saturating `i16` addition is exact addition when the sum is in range. -/
theorem satAddI16_eq_add (a b : Int) (h1 : -32768 ≤ a + b) (h2 : a + b ≤ 32767) :
    satAddI16 a b = a + b := by
  unfold satAddI16
  omega

/-- With the sum in `i16` range, `with_offset` computes the spec's
`from_rank` of `rank + offset`. -/
theorem with_offset_eq_from_rank (f : VerbosityFilter) (o : Int)
    (h1 : -32768 ≤ (f.value : Int) + o) (h2 : (f.value : Int) + o ≤ 32767) :
    VerbosityFilter.with_offset f o = from_rank ((rank f : Int) + o) := by
  rw [rank_eq_value]
  simp only [VerbosityFilter.with_offset, from_rank, satAddI16_eq_add _ _ h1 h2]
  split_ifs <;> first | rfl | omega

/-- Master characterization: on the `u8 × u8` domain, `filter` is the
spec's `from_rank (rank baseline + (verbose - quiet))`. -/
theorem filter_eq_from_rank (L : LogLevel) (v q : Nat) (hv : v ≤ 255) (hq : q ≤ 255) :
    Verbosity.filter L (Verbosity.new v q) =
      from_rank ((rank L.default_filter : Int) + ((v : Int) - (q : Int))) := by
  have hval := value_le_five L.default_filter
  have hw : wrapI16 ((v : Int) - (q : Int)) = (v : Int) - (q : Int) := by
    apply wrapI16_eq_self <;> omega
  simp only [Verbosity.filter, Verbosity.new, hw]
  exact with_offset_eq_from_rank _ _ (by omega) (by omega)

/-- Clamping the argument of `from_rank` into `[0, 5]` is redundant:
`from_rank` already saturates at both ends. -/
theorem from_rank_clamp (n : Int) : from_rank (max 0 (min 5 n)) = from_rank n := by
  unfold from_rank
  split_ifs <;> first | rfl | omega

/-- Round trip: `from_rank` after `rank` is the identity. -/
theorem from_rank_rank (f : VerbosityFilter) : from_rank (rank f : Int) = f := by
  cases f <;> rfl

/-- Monotonicity of `from_rank` measured through `rank`. -/
theorem rank_from_rank_mono (x y : Int) (h : x ≤ y) :
    rank (from_rank x) ≤ rank (from_rank y) := by
  unfold from_rank
  split_ifs <;> simp only [rank] <;> omega

/-- Resolving the counts produced by `fromFilter` recovers the filter,
for every baseline. -/
theorem fromFilter_filter (L : LogLevel) (f : VerbosityFilter) :
    Verbosity.filter L (Verbosity.fromFilter L f) = f := by
  obtain ⟨d⟩ := L
  cases d <;> cases f <;> decide

/-! ## Claim theorems -/

/-- C1: for every `LogLevel` baseline and all `u8` counts `verbose` and
`quiet`, `Verbosity::new(verbose, quiet).filter()` equals the severity
level whose rank is `clamp(rank(default_filter) + (verbose - quiet), 0, 5)`,
with rank mapping `Off..Trace` to `0..5`. -/
theorem filter_eq_clamped_rank (L : LogLevel) (v q : Nat) (hv : v ≤ 255) (hq : q ≤ 255) :
    Verbosity.filter L (Verbosity.new v q) =
      from_rank (max 0 (min 5 ((rank L.default_filter : Int) + ((v : Int) - (q : Int))))) := by
  rw [from_rank_clamp]
  exact filter_eq_from_rank L v q hv hq

/-- Witness for C1: baseline `Error`, `verbose = 1`, `quiet = 0`
resolves to the level of clamped rank `2`, i.e. `Warn`. -/
theorem filter_eq_clamped_rank_witness :
    Verbosity.filter ErrorLevel (Verbosity.new 1 0) =
      from_rank (max 0 (min 5 ((rank ErrorLevel.default_filter : Int) +
        (((1 : Nat) : Int) - ((0 : Nat) : Int))))) := by
  exact filter_eq_clamped_rank ErrorLevel 1 0 (by decide) (by decide)

/-- C2: on the whole `u8 × u8` domain the `i16` subtraction does not
wrap, the `i16` saturating addition is exact (so `filter` is total with
no overflow), and a computed rank at or below `0` yields `Off` while one
at or above `5` yields `Trace` — saturation, not an error. -/
theorem filter_total_saturating (L : LogLevel) (v q : Nat) (hv : v ≤ 255) (hq : q ≤ 255) :
    wrapI16 ((v : Int) - (q : Int)) = (v : Int) - (q : Int) ∧
    satAddI16 (L.default_filter.value : Int) ((v : Int) - (q : Int)) =
      (L.default_filter.value : Int) + ((v : Int) - (q : Int)) ∧
    ((rank L.default_filter : Int) + ((v : Int) - (q : Int)) ≤ 0 →
      Verbosity.filter L (Verbosity.new v q) = VerbosityFilter.Off) ∧
    (5 ≤ (rank L.default_filter : Int) + ((v : Int) - (q : Int)) →
      Verbosity.filter L (Verbosity.new v q) = VerbosityFilter.Trace) := by
  have hval := value_le_five L.default_filter
  refine ⟨by apply wrapI16_eq_self <;> omega, by apply satAddI16_eq_add <;> omega, ?_, ?_⟩
  · intro h
    rw [filter_eq_from_rank L v q hv hq]
    unfold from_rank
    rw [if_pos h]
  · intro h
    rw [filter_eq_from_rank L v q hv hq]
    unfold from_rank
    rw [if_neg (by omega), if_pos h]

/-- Witness for C2 at baseline `Error`, `verbose = 0`, `quiet = 255`:
the subtraction and saturating addition are exact, and the computed rank
`1 - 255 ≤ 0` saturates to `Off`. -/
theorem filter_total_saturating_witness :
    wrapI16 (((0 : Nat) : Int) - ((255 : Nat) : Int)) = ((0 : Nat) : Int) - ((255 : Nat) : Int) ∧
    satAddI16 (ErrorLevel.default_filter.value : Int) (((0 : Nat) : Int) - ((255 : Nat) : Int)) =
      (ErrorLevel.default_filter.value : Int) + (((0 : Nat) : Int) - ((255 : Nat) : Int)) ∧
    ((rank ErrorLevel.default_filter : Int) + (((0 : Nat) : Int) - ((255 : Nat) : Int)) ≤ 0 →
      Verbosity.filter ErrorLevel (Verbosity.new 0 255) = VerbosityFilter.Off) ∧
    (5 ≤ (rank ErrorLevel.default_filter : Int) + (((0 : Nat) : Int) - ((255 : Nat) : Int)) →
      Verbosity.filter ErrorLevel (Verbosity.new 0 255) = VerbosityFilter.Trace) := by
  exact filter_total_saturating ErrorLevel 0 255 (by decide) (by decide)

/-- C3: with `quiet` fixed, the effective level (measured through
`rank`, which realizes the order `Off < Error < Warn < Info < Debug <
Trace`) never decreases as `verbose` increases; with `verbose` fixed it
never increases as `quiet` increases. -/
theorem filter_monotone (L : LogLevel) (v v' q q' : Nat)
    (hv : v ≤ 255) (hv' : v' ≤ 255) (hq : q ≤ 255) (hq' : q' ≤ 255) :
    (v ≤ v' →
      rank (Verbosity.filter L (Verbosity.new v q)) ≤
        rank (Verbosity.filter L (Verbosity.new v' q))) ∧
    (q ≤ q' →
      rank (Verbosity.filter L (Verbosity.new v q')) ≤
        rank (Verbosity.filter L (Verbosity.new v q))) := by
  constructor
  · intro h
    rw [filter_eq_from_rank L v q hv hq, filter_eq_from_rank L v' q hv' hq]
    exact rank_from_rank_mono _ _ (by omega)
  · intro h
    rw [filter_eq_from_rank L v q' hv hq', filter_eq_from_rank L v q hv hq]
    exact rank_from_rank_mono _ _ (by omega)

/-- Witness for C3 at baseline `Error`, `v = 1 ≤ v' = 2`, `q = 0 ≤ q' = 1`. -/
theorem filter_monotone_witness :
    ((1 : Nat) ≤ 2 →
      rank (Verbosity.filter ErrorLevel (Verbosity.new 1 0)) ≤
        rank (Verbosity.filter ErrorLevel (Verbosity.new 2 0))) ∧
    ((0 : Nat) ≤ 1 →
      rank (Verbosity.filter ErrorLevel (Verbosity.new 1 1)) ≤
        rank (Verbosity.filter ErrorLevel (Verbosity.new 1 0))) := by
  exact filter_monotone ErrorLevel 1 2 0 1 (by decide) (by decide) (by decide) (by decide)

/-- C4: with baseline `Trace` and `quiet = 0` the filter is `Trace` for
every `verbose` in `0..=255`; with baseline `Off` and `verbose = 0` the
filter is `Off` for every `quiet` in `0..=255`. -/
theorem filter_saturation_extremes (v q : Nat) (hv : v ≤ 255) (hq : q ≤ 255) :
    Verbosity.filter TraceLevel (Verbosity.new v 0) = VerbosityFilter.Trace ∧
    Verbosity.filter OffLevel (Verbosity.new 0 q) = VerbosityFilter.Off := by
  constructor
  · rw [filter_eq_from_rank TraceLevel v 0 hv (by omega)]
    simp only [TraceLevel, rank, from_rank]
    split_ifs <;> first | rfl | omega
  · rw [filter_eq_from_rank OffLevel 0 q (by omega) hq]
    simp only [OffLevel, rank, from_rank]
    split_ifs <;> first | rfl | omega

/-- Witness for C4 at `verbose = 255` (top) and `quiet = 255` (bottom). -/
theorem filter_saturation_extremes_witness :
    Verbosity.filter TraceLevel (Verbosity.new 255 0) = VerbosityFilter.Trace ∧
    Verbosity.filter OffLevel (Verbosity.new 0 255) = VerbosityFilter.Off := by
  exact filter_saturation_extremes 255 255 (by decide) (by decide)

/-- C5: for every baseline (including `Off`) and every count `n` in
`0..=255`, equal `verbose` and `quiet` counts cancel exactly back to the
baseline; and `from_rank` after `rank` is the identity on all six
levels. -/
theorem filter_cancellation_round_trip (L : LogLevel) (n : Nat) (hn : n ≤ 255) :
    Verbosity.filter L (Verbosity.new n n) = L.default_filter ∧
    ∀ f : VerbosityFilter, from_rank (rank f : Int) = f := by
  constructor
  · rw [filter_eq_from_rank L n n hn hn]
    have h : (rank L.default_filter : Int) + ((n : Int) - (n : Int)) =
        (rank L.default_filter : Int) := by omega
    rw [h, from_rank_rank]
  · exact from_rank_rank

/-- Witness for C5 at baseline `Off`, `n = 255`. -/
theorem filter_cancellation_round_trip_witness :
    Verbosity.filter OffLevel (Verbosity.new 255 255) = OffLevel.default_filter ∧
    ∀ f : VerbosityFilter, from_rank (rank f : Int) = f := by
  exact filter_cancellation_round_trip OffLevel 255 (by decide)

/-- C6: the conversions from the effective filter to the `log` and
`tracing` backend types preserve the six-level total order exactly:
rank `0` (`Off`) maps to the backend's off filter and to `none`, and
ranks `1` through `5` map in order to `Error..Trace` (so the rank of the
image always equals the rank of the filter); consequently `log_level()`
is `none` exactly when the effective filter is `Off`. -/
theorem backend_conversions_preserve_order :
    (∀ f : VerbosityFilter, (logLevelFilterOfFilter f).rank = rank f) ∧
    (∀ f : VerbosityFilter, (tracingLevelFilterOfFilter f).rank = rank f) ∧
    (optLogLevelOfFilter VerbosityFilter.Off = none) ∧
    (optTracingLevelOfFilter VerbosityFilter.Off = none) ∧
    (∀ f : VerbosityFilter,
      (optLogLevelOfFilter f).isNone = (f == VerbosityFilter.Off)) ∧
    (∀ f : VerbosityFilter,
      (optTracingLevelOfFilter f).isNone = (f == VerbosityFilter.Off)) ∧
    (∀ f : VerbosityFilter,
      ((optLogLevelOfFilter f).map LogBackend.Level.rank).getD 0 = rank f) ∧
    (∀ f : VerbosityFilter,
      ((optTracingLevelOfFilter f).map TracingBackend.Level.rank).getD 0 = rank f) ∧
    (∀ (L : LogLevel) (s : Verbosity),
      (Verbosity.log_level L s).isNone = (Verbosity.filter L s == VerbosityFilter.Off)) := by
  refine ⟨fun f => by cases f <;> rfl, fun f => by cases f <;> rfl, rfl, rfl,
    fun f => by cases f <;> rfl, fun f => by cases f <;> rfl,
    fun f => by cases f <;> rfl, fun f => by cases f <;> rfl, ?_⟩
  intro L s
  unfold Verbosity.log_level
  cases Verbosity.filter L s <;> rfl

/-- C7: the effective level serializes as the single scalar string that
is its lowercase name (identical to its `Display` rendering),
deserializing that string recovers a `Verbosity` whose `filter()` is
exactly that level, and the `Display` of a `Verbosity` is the lowercase
name of its effective level. -/
theorem serialize_deserialize_display (L : LogLevel) :
    (∀ s : Verbosity, Verbosity.serialize L s = (Verbosity.filter L s).display) ∧
    (∀ f : VerbosityFilter, f.serialize = f.display) ∧
    (∀ f : VerbosityFilter, VerbosityFilter.deserialize f.serialize = some f) ∧
    (∀ f : VerbosityFilter,
      Verbosity.deserialize L f.serialize = some (Verbosity.fromFilter L f)) ∧
    (∀ f : VerbosityFilter, Verbosity.filter L (Verbosity.fromFilter L f) = f) ∧
    (∀ s : Verbosity, Verbosity.display L s = (Verbosity.filter L s).display) := by
  refine ⟨?_, fun f => by cases f <;> rfl, fun f => by cases f <;> rfl, ?_,
    fromFilter_filter L, fun s => rfl⟩
  · intro s
    unfold Verbosity.serialize
    cases Verbosity.filter L s <;> rfl
  · intro f
    cases f <;> rfl

/-- C8: `is_silent()` is `true` exactly when `filter()` is `Off`, for
every baseline and all `u8` counts. -/
theorem is_silent_iff_filter_off (L : LogLevel) (v q : Nat) (_hv : v ≤ 255) (_hq : q ≤ 255) :
    Verbosity.is_silent L (Verbosity.new v q) = true ↔
      Verbosity.filter L (Verbosity.new v q) = VerbosityFilter.Off := by
  unfold Verbosity.is_silent
  exact beq_iff_eq

/-- Witness for C8 at baseline `Error`, `verbose = 0`, `quiet = 1`. -/
theorem is_silent_iff_filter_off_witness :
    Verbosity.is_silent ErrorLevel (Verbosity.new 0 1) = true ↔
      Verbosity.filter ErrorLevel (Verbosity.new 0 1) = VerbosityFilter.Off := by
  exact is_silent_iff_filter_off ErrorLevel 0 1 (by decide) (by decide)

/-- C9: converting any filter into flag counts via
`From<VerbosityFilter>` (saturating subtraction against the baseline)
and resolving again recovers exactly the same filter, for every
baseline. -/
theorem from_filter_recovers (L : LogLevel) (f : VerbosityFilter) :
    Verbosity.filter L (Verbosity.fromFilter L f) = f := by
  exact fromFilter_filter L f

/-- C10: `filter()` depends on the two counts only through their
difference — translating both counts by the same `k` (staying in the
`u8` range) leaves the result unchanged. -/
theorem filter_translation_invariant (L : LogLevel) (v q k : Nat)
    (_h1 : v + k ≤ 255) (_h2 : q + k ≤ 255) :
    Verbosity.filter L (Verbosity.new (v + k) (q + k)) =
      Verbosity.filter L (Verbosity.new v q) := by
  have h : ((v + k : Nat) : Int) - ((q + k : Nat) : Int) = (v : Int) - (q : Int) := by
    push_cast
    ring
  simp only [Verbosity.filter, Verbosity.new, h]

/-- Witness for C10 at baseline `Error`, `v = 1`, `q = 0`, `k = 254`. -/
theorem filter_translation_invariant_witness :
    Verbosity.filter ErrorLevel (Verbosity.new (1 + 254) (0 + 254)) =
      Verbosity.filter ErrorLevel (Verbosity.new 1 0) := by
  exact filter_translation_invariant ErrorLevel 1 0 254 (by decide) (by decide)

end ClapVerbosity
